import Mathlib

/-
Verification of the Land Inventory Configuration Engine (src/schema.sql).

The PostgreSQL tables are embedded as Lean lists of row structures; row
insertion order models physical scan order.  UUIDs are modelled as naturals
drawn from a fresh-id counter, NOW() as an explicit natural-number clock
passed to each mutating operation, and NUMERIC as the rationals.  plpgsql
functions become Lean functions over the database state; a function that can
RAISE becomes an Except-valued function, and the surrounding transaction
(which rolls the whole statement back on an uncaught exception) is modelled
by returning the pre-call state on error.
-/

namespace LandEngine

/-- The CHECK constraint check_plot_status_valid on land_plots
(schema.sql:2659-2660); SQL CHECK constraints pass on NULL. -/
def validStatuses : List String := ["available", "booked", "sold", "reserved", "blocked"]

def plotStatusValid : Option String → Bool
  | none => true
  | some s => validStatuses.contains s

/-- A row of land_blocks (schema.sql:1119-1126).  Timestamp columns are
omitted: no verified operation reads them. -/
structure LandBlockRow where
  id : Nat
  property_id : Nat
  name : String
  description : Option String
  deriving Repr, DecidableEq

/-- A row of land_plots (schema.sql:1135-1145). -/
structure LandPlotRow where
  id : Nat
  block_id : Nat
  plot_number : String
  area : Rat
  price : String
  status : Option String
  description : Option String
  deriving Repr, DecidableEq

/-! ## Plot Numbering Allocator: get_next_plot_number (schema.sql:224-248) -/

inductive SqlError
  | notFound
  | uniqueViolation
  | checkViolation
  | numericOutOfRange
  | undefinedFunction
  deriving Repr, DecidableEq

/-- PostgreSQL LPAD(s, len, fill): pads s on the left to length len;
a string already longer than len is truncated on the right to len
characters. -/
def lpad (s : String) (len : Nat) (fill : Char) : String :=
  if s.length ≥ len then ⟨s.data.take len⟩
  else ⟨List.replicate (len - s.length) fill ++ s.data⟩

/-- 2^31 - 1, the largest PostgreSQL INTEGER (int4): the type of next_num
(schema.sql:227) and the target of the ::INTEGER cast of the suffix
(schema.sql:235). -/
def int4Max : Nat := 2147483647

/-- Characters that carry special meaning inside a POSIX regular expression,
by code point: dollar, parentheses, star, plus, dot, question mark, square
brackets, backslash, caret, braces, bar. -/
def regexMetaChar (c : Char) : Bool :=
  c.toNat ∈ [36, 40, 41, 42, 43, 46, 63, 91, 92, 93, 94, 123, 124, 125]

/-- A pfx string whose characters all match themselves literally inside a
regular expression.  The source splices pfx (its plot_prefix parameter) into
the pattern text (schema.sql:234), so literal prefix matching models the
source exactly for such prefixes; the default P is one.  The allocator
theorems are stated under this hypothesis. -/
def regexSafe (pfx : String) : Bool :=
  pfx.data.all (fun c => ¬ regexMetaChar c)

/-- Whether a plot number matches the anchored pattern of schema.sql:234 —
pfx followed by one or more digits — with the spliced pfx read literally
(faithful for regexSafe prefixes, see regexSafe). -/
def matchesPat (pfx s : String) : Bool :=
  s.data.take pfx.data.length = pfx.data
    ∧ s.data.drop pfx.data.length ≠ []
    ∧ (s.data.drop pfx.data.length).all Char.isDigit

/-- The numeric value of the digit suffix read by SUBSTRING(plot_number FROM
length(pfx)+1) at schema.sql:235, as an unbounded natural (defined on
all-digit suffixes); the ::INTEGER range failure of that line is raised by
get_next_plot_number, which guards every use against int4Max. -/
def suffixVal (pfx s : String) : Nat :=
  (s.data.drop pfx.data.length).foldl (fun n c => n * 10 + (c.toNat - 48)) 0

/-- get_next_plot_number (schema.sql:224-248): next_num is MAX over the
block's plots of CASE WHEN matching THEN suffix::INTEGER ELSE 0 END,
COALESCEd to 0, plus one; the result is next_num LPADded to 3 with zeros
and prefixed.  Two error paths of the source are kept: the ::INTEGER cast
raises numeric out of range (22003) when a matching suffix exceeds int4Max,
and the INTEGER addition next_num = MAX + 1 overflows when the maximum is
int4Max itself. -/
def get_next_plot_number (plots : List LandPlotRow) (input_block_id : Nat) (pfx : String) :
    Except SqlError String :=
  if (plots.filter (fun p => p.block_id == input_block_id)).any
      (fun p => matchesPat pfx p.plot_number && decide (int4Max < suffixVal pfx p.plot_number)) then
    .error .numericOutOfRange
  else if int4Max < ((plots.filter (fun p => p.block_id == input_block_id)).map
      (fun p => if matchesPat pfx p.plot_number then suffixVal pfx p.plot_number else 0)).foldr
      Nat.max 0 + 1 then
    .error .numericOutOfRange
  else
    .ok (pfx ++ lpad (Nat.repr
      (((plots.filter (fun p => p.block_id == input_block_id)).map
        (fun p => if matchesPat pfx p.plot_number then suffixVal pfx p.plot_number else 0)).foldr
        Nat.max 0 + 1)) 3 '0')

/-! ## Statistics Aggregator: get_property_land_statistics (schema.sql:191-221) -/

structure LandStatistics where
  total_blocks : Nat
  total_plots : Nat
  available_plots : Nat
  booked_plots : Nat
  sold_plots : Nat
  reserved_plots : Nat
  total_area : Rat
  average_plot_size : Rat
  min_plot_size : Rat
  max_plot_size : Rat
  deriving Repr, DecidableEq

def zeroStatistics : LandStatistics :=
  ⟨0, 0, 0, 0, 0, 0, 0, 0, 0, 0⟩

/-- The row set of land_blocks LEFT JOIN land_plots ON blocks.id =
plots.block_id WHERE blocks.property_id = pid (schema.sql:217-219):
each block pairs with each of its plots, or with NULL when it has none. -/
def statJoinRows (blocks : List LandBlockRow) (plots : List LandPlotRow)
    (pid : Nat) : List (LandBlockRow × Option LandPlotRow) :=
  (blocks.filter (fun b => b.property_id == pid)).flatMap (fun b =>
    match plots.filter (fun p => p.block_id == b.id) with
    | [] => [(b, none)]
    | ps => ps.map (fun p => (b, some p)))

/-- get_property_land_statistics (schema.sql:191-221): a single aggregate row
over the left join; COUNT(x) counts non-NULL x, COUNT(DISTINCT blocks.id)
deduplicates, and SUM/AVG/MIN/MAX over an empty set are NULL, COALESCEd
to 0. -/
def get_property_land_statistics (blocks : List LandBlockRow)
    (plots : List LandPlotRow) (input_property_id : Nat) : LandStatistics :=
  let rows := statJoinRows blocks plots input_property_id
  let plotRows := rows.filterMap Prod.snd
  let areas := plotRows.map LandPlotRow.area
  { total_blocks := ((rows.map (fun r => r.1.id)).dedup).length
    total_plots := plotRows.length
    available_plots := plotRows.countP (fun p => p.status == some "available")
    booked_plots := plotRows.countP (fun p => p.status == some "booked")
    sold_plots := plotRows.countP (fun p => p.status == some "sold")
    reserved_plots := plotRows.countP (fun p => p.status == some "reserved")
    total_area := areas.sum
    average_plot_size := if areas.isEmpty then 0 else areas.sum / areas.length
    min_plot_size := match areas with | [] => 0 | a :: rest => rest.foldl min a
    max_plot_size := match areas with | [] => 0 | a :: rest => rest.foldl max a }

/-! ## Status Transition Tracker and booking operations -/

/-- A row of property_plots (schema.sql:599-608 plus the booked_by and
booked_at columns added at schema.sql:861-877). -/
structure PropertyPlotRow where
  id : Nat
  property_id : Nat
  plot_number : String
  status : Option String
  booked_by : Option Nat
  booked_at : Option Nat
  updated_at : Nat
  deriving Repr, DecidableEq

/-- A row of land_plot_status_history (schema.sql:1990-1998; the earlier
creation at 1235-1243 names the columns previous_status and new_status and
the repair blocks normalise to old_status).  new_status is NOT NULL. -/
structure HistoryRow where
  id : Nat
  plot_id : Option Nat
  old_status : Option String
  new_status : String
  changed_by : Option String
  changed_at : Nat
  deriving Repr, DecidableEq

/-- The database state shared by the booking, tracking and deletion
operations.  history_ok models whether land_plot_status_history and its
expected columns exist (the schema-drift scenario of the trigger's
exception handlers, schema.sql:2484-2494). -/
structure InventoryDB where
  land_plots : List LandPlotRow
  property_plots : List PropertyPlotRow
  land_plot_status_history : List HistoryRow
  history_ok : Bool
  next_id : Nat
  deriving Repr, DecidableEq

/-- track_plot_status_changes (schema.sql:2454-2498), fired AFTER UPDATE FOR
EACH ROW on land_plots (schema.sql:2560-2563).  When OLD.status IS DISTINCT
FROM NEW.status it inserts a history row; any failure of that insert (table
or columns missing, modelled by history_ok = false, or NEW.status NULL
violating the NOT NULL column) is caught by the EXCEPTION handlers, which
only RAISE NOTICE, so the trigger always returns NEW. -/
def track_plot_status_changes (db : InventoryDB) (old_status new_status : Option String)
    (plot_id : Nat) (now : Nat) : InventoryDB :=
  if (old_status.isSome || new_status.isSome) && old_status ≠ new_status then
    match new_status, db.history_ok with
    | some ns, true =>
        { db with
          land_plot_status_history := db.land_plot_status_history ++
            [{ id := db.next_id, plot_id := some plot_id, old_status := old_status,
               new_status := ns, changed_by := none, changed_at := now }]
          next_id := db.next_id + 1 }
    | _, _ => db
  else db

/-- UPDATE land_plots SET status = s WHERE id = plot_id, with the CHECK
constraint check_plot_status_valid (schema.sql:2659-2660) and the AFTER
UPDATE trigger track_land_plot_status_changes (schema.sql:2560-2563).
Returns whether a row was affected. -/
def update_land_plot_status (db : InventoryDB) (plot_id : Nat) (s : Option String)
    (now : Nat) : Except SqlError (InventoryDB × Bool) :=
  if ¬ plotStatusValid s then .error .checkViolation
  else
    match db.land_plots.find? (fun p => p.id == plot_id) with
    | none => .ok (db, false)
    | some old =>
        let db1 := { db with
          land_plots := db.land_plots.map (fun p =>
            if p.id == plot_id then { p with status := s } else p) }
        .ok (track_plot_status_changes db1 old.status s plot_id now, true)

/-- The UPDATE statement of update_plot_booking (schema.sql:898-911): sets
status, booked_by (the user for the booked and sold statuses, NULL
otherwise), booked_at (NOW() for those statuses, NULL otherwise) and
updated_at on the matching property_plots row; its ROW_COUNT is whether a
row matched.  No status-tracking trigger exists on property_plots — the
trigger is created on land_plots only (schema.sql:2557-2563) — so the
history table is untouched by this statement. -/
def update_plot_booking_update (db : InventoryDB) (p_plot_id : Nat) (p_status : String)
    (p_user_id : Option Nat) (now : Nat) : InventoryDB × Bool :=
  let isBooking := p_status == "booked" || p_status == "sold"
  let affected := db.property_plots.any (fun p => p.id == p_plot_id)
  ({ db with
     property_plots := db.property_plots.map (fun p =>
       if p.id == p_plot_id then
         { p with status := some p_status,
                  booked_by := if isBooking then p_user_id else none,
                  booked_at := if isBooking then some now else none,
                  updated_at := now }
       else p) },
   affected)

/-- update_plot_booking (schema.sql:889-916): runs the UPDATE, reads
ROW_COUNT into v_success — declared BOOLEAN at schema.sql:896 — and then
executes RETURN v_success > 0 (schema.sql:914).  PostgreSQL has no
boolean-greater-than-integer operator and no implicit cast that would
resolve one, so the RETURN expression raises undefined_function (42883) on
every call; the error aborts the function after the UPDATE has run, and the
surrounding statement abort rolls the UPDATE back, so the computed state is
never committed. -/
def update_plot_booking (db : InventoryDB) (p_plot_id : Nat) (p_status : String)
    (p_user_id : Option Nat) (now : Nat) : Except SqlError (InventoryDB × Bool) :=
  match update_plot_booking_update db p_plot_id p_status p_user_id now with
  | (_, _) => .error .undefinedFunction

/-- The update_plot_booking call as its caller observes it: the raise aborts
the enclosing statement and the UPDATE is rolled back, leaving the pre-call
state. -/
def update_plot_booking_tx (db : InventoryDB) (p_plot_id : Nat) (p_status : String)
    (p_user_id : Option Nat) (now : Nat) : InventoryDB × Option SqlError :=
  match update_plot_booking db p_plot_id p_status p_user_id now with
  | .ok (db1, _) => (db1, none)
  | .error e => (db, some e)

/-- DELETE FROM land_plots WHERE id = plot_id.  The foreign key
land_plot_status_history.plot_id REFERENCES land_plots(id) ON DELETE CASCADE
(schema.sql:1237 and 1992, and the repair path 99-101) deletes the plot's
history rows together with the plot. -/
def delete_land_plot (db : InventoryDB) (plot_id : Nat) : InventoryDB :=
  { db with
    land_plots := db.land_plots.filter (fun p => ¬ p.id == plot_id),
    land_plot_status_history :=
      db.land_plot_status_history.filter (fun h => ¬ h.plot_id == some plot_id) }

/-! ## Snapshot Store and Snapshot/Apply Engine

property_land_configurations (schema.sql:1214-1222) stores a JSONB payload;
the payload shape written by create_property_land_configuration
(schema.sql:1315-1343) and read back by apply_property_land_configuration
(schema.sql:1399-1423) is an array of block objects each holding a plots
array, embedded here as typed records. -/

/-- One plot object of a blocks_data payload: the keys built at
schema.sql:1331-1338 (id, plot_number, area, price, status, description);
apply reads all but id. -/
structure PlotData where
  id : Option Nat
  plot_number : String
  area : Rat
  price : String
  status : Option String
  description : Option String
  deriving Repr, DecidableEq

/-- One block object of a blocks_data payload: the keys built at
schema.sql:1317-1322 (id, name, description, plots). -/
structure BlockData where
  id : Option Nat
  name : String
  description : Option String
  plots : List PlotData
  deriving Repr, DecidableEq

/-- A row of property_land_configurations (schema.sql:1214-1222). -/
structure ConfigRow where
  id : Nat
  property_id : Nat
  configuration_name : String
  blocks_data : List BlockData
  is_active : Bool
  deriving Repr, DecidableEq

/-- The database state for the configuration engine. -/
structure ConfigDB where
  land_blocks : List LandBlockRow
  land_plots : List LandPlotRow
  configs : List ConfigRow
  next_id : Nat
  deriving Repr, DecidableEq

/-- INSERT INTO land_blocks (property_id, name, description)
(schema.sql:1402-1407), RETURNING the generated id; fails on the unique
index idx_land_blocks_unique_name_per_property on
(property_id, LOWER(name)) (schema.sql:1168-1169). -/
def insert_land_block (db : ConfigDB) (pid : Nat) (name : String)
    (description : Option String) : Except SqlError (ConfigDB × Nat) :=
  if db.land_blocks.any (fun b => b.property_id == pid && b.name.toLower == name.toLower) then
    .error .uniqueViolation
  else
    .ok ({ db with
           land_blocks := db.land_blocks ++
             [{ id := db.next_id, property_id := pid, name := name,
                description := description }]
           next_id := db.next_id + 1 },
         db.next_id)

/-- INSERT INTO land_plots (block_id, plot_number, area, price, status,
description) (schema.sql:1412-1421); fails on the unique index
idx_land_plots_unique_plot_per_block on (block_id, LOWER(plot_number))
(schema.sql:1164-1165), on check_plot_area_positive (schema.sql:2649) and on
check_plot_status_valid (schema.sql:2659-2660). -/
def insert_land_plot (db : ConfigDB) (bid : Nat) (pd : PlotData) :
    Except SqlError ConfigDB :=
  if db.land_plots.any (fun p =>
      p.block_id == bid && p.plot_number.toLower == pd.plot_number.toLower) then
    .error .uniqueViolation
  else if ¬ (0 < pd.area) then .error .checkViolation
  else if ¬ plotStatusValid pd.status then .error .checkViolation
  else
    .ok { db with
          land_plots := db.land_plots ++
            [{ id := db.next_id, block_id := bid, plot_number := pd.plot_number,
               area := pd.area, price := pd.price, status := pd.status,
               description := pd.description }]
          next_id := db.next_id + 1 }

/-- The inner plot loop of apply_property_land_configuration
(schema.sql:1410-1422). -/
def applyPlots (db : ConfigDB) (bid : Nat) : List PlotData → Except SqlError ConfigDB
  | [] => .ok db
  | pd :: rest =>
      match insert_land_plot db bid pd with
      | .error e => .error e
      | .ok db1 => applyPlots db1 bid rest

/-- The block loop of apply_property_land_configuration
(schema.sql:1399-1423): insert each block, then its plots under the freshly
generated block id. -/
def applyBlocks (db : ConfigDB) (pid : Nat) : List BlockData → Except SqlError ConfigDB
  | [] => .ok db
  | bd :: rest =>
      match insert_land_block db pid bd.name bd.description with
      | .error e => .error e
      | .ok (db1, bid) =>
        match applyPlots db1 bid bd.plots with
        | .error e => .error e
        | .ok db2 => applyBlocks db2 pid rest

/-- The teardown of apply_property_land_configuration (schema.sql:1392-1396):
DELETE FROM land_plots WHERE block_id IN (SELECT id FROM land_blocks WHERE
property_id = pid), then DELETE FROM land_blocks WHERE property_id = pid. -/
def clearProperty (db : ConfigDB) (pid : Nat) : ConfigDB :=
  let bids := (db.land_blocks.filter (fun b => b.property_id == pid)).map LandBlockRow.id
  { db with
    land_plots := db.land_plots.filter (fun p => ¬ bids.contains p.block_id),
    land_blocks := db.land_blocks.filter (fun b => ¬ b.property_id == pid) }

/-- apply_property_land_configuration (schema.sql:1368-1427): load the
configuration WHERE id = cid AND is_active = TRUE, RAISE if NOT FOUND, then
teardown and rebuild from the payload.  The function never updates
property_land_configurations. -/
def apply_property_land_configuration (db : ConfigDB) (cid : Nat) :
    Except SqlError ConfigDB :=
  match db.configs.find? (fun c => c.id == cid && c.is_active) with
  | none => .error .notFound
  | some c => applyBlocks (clearProperty db c.property_id) c.property_id c.blocks_data

/-- The apply call as seen by its caller: plpgsql exceptions abort the whole
transaction, so an error leaves the pre-call state. -/
def apply_configuration_tx (db : ConfigDB) (cid : Nat) : ConfigDB × Option SqlError :=
  match apply_property_land_configuration db cid with
  | .ok db1 => (db1, none)
  | .error e => (db, some e)

/-- The blocks_data payload built by create_property_land_configuration
(schema.sql:1315-1343): every block of the property with its plots nested,
a block without plots receiving the empty array via COALESCE. -/
def blocksJson (db : ConfigDB) (pid : Nat) : List BlockData :=
  (db.land_blocks.filter (fun b => b.property_id == pid)).map (fun b =>
    { id := some b.id, name := b.name, description := b.description,
      plots := (db.land_plots.filter (fun p => p.block_id == b.id)).map (fun p =>
        { id := some p.id, plot_number := p.plot_number, area := p.area,
          price := p.price, status := p.status, description := p.description }) })

/-- create_property_land_configuration (schema.sql:1306-1365): snapshot the
current layout, UPDATE ... SET is_active = FALSE on the property's active
configurations, INSERT the new configuration as active and return its id. -/
def create_property_land_configuration (db : ConfigDB) (pid : Nat)
    (cfgName : String) : ConfigDB × Nat :=
  let blocks_json := blocksJson db pid
  let deactivated := db.configs.map (fun c =>
    if c.property_id == pid && c.is_active then { c with is_active := false } else c)
  ({ db with
     configs := deactivated ++
       [{ id := db.next_id, property_id := pid, configuration_name := cfgName,
          blocks_data := blocks_json, is_active := true }]
     next_id := db.next_id + 1 },
   db.next_id)

/-- An external-caller operation on the configuration engine, for stating
the invariant over arbitrary sequences of save and apply. -/
inductive LandOp
  | save (pid : Nat) (cfgName : String)
  | applyCfg (cid : Nat)

def runOp (db : ConfigDB) : LandOp → ConfigDB
  | .save pid cfgName => (create_property_land_configuration db pid cfgName).1
  | .applyCfg cid => (apply_configuration_tx db cid).1

def runOps (db : ConfigDB) (ops : List LandOp) : ConfigDB :=
  ops.foldl runOp db

/-- Number of active configurations a property owns. -/
def activeCount (db : ConfigDB) (pid : Nat) : Nat :=
  (db.configs.filter (fun c => c.property_id == pid && c.is_active)).length

/-- The invariant enforced by the partial unique index
idx_property_land_configurations_unique_active (schema.sql:1269-1270). -/
def atMostOneActive (db : ConfigDB) : Prop :=
  ∀ pid, activeCount db pid ≤ 1

/-- Well-formedness of the fresh-id counter: every stored identifier was
generated below it. -/
def WFIds (db : ConfigDB) : Prop :=
  (∀ b ∈ db.land_blocks, b.id < db.next_id) ∧
  (∀ p ∈ db.land_plots, p.block_id < db.next_id) ∧
  (∀ c ∈ db.configs, c.id < db.next_id)

/-! Structural equality of payloads modulo generated identifiers. -/

def PlotData.eraseId (p : PlotData) : PlotData := { p with id := none }

def BlockData.eraseIds (b : BlockData) : BlockData :=
  { b with id := none, plots := b.plots.map PlotData.eraseId }

def payloadShape (bs : List BlockData) : List BlockData :=
  bs.map BlockData.eraseIds

/-! ## Claim-side description of the allocator (spec section 4.1) -/

/-- The padding the spec describes: zero-pad on the left to at least three
digits, never truncating a longer number. -/
def padAtLeastThree (n : Nat) : String :=
  if (Nat.repr n).length ≥ 3 then Nat.repr n
  else ⟨List.replicate (3 - (Nat.repr n).length) '0' ++ (Nat.repr n).data⟩

/-- The numeric suffixes of the block's plot numbers that match the
anchored pattern. -/
def matchingSuffixes (plots : List LandPlotRow) (bid : Nat) (pfx : String) : List Nat :=
  (plots.filter (fun p => p.block_id == bid)).filterMap (fun p =>
    if matchesPat pfx p.plot_number then some (suffixVal pfx p.plot_number) else none)

/-- The allocator exactly as the claim words it: maximum matching suffix plus
one, padded to at least three digits with numbers of four or more digits kept
whole; the prefixed 001 when nothing matches. -/
def nextPlotNumberClaim (plots : List LandPlotRow) (bid : Nat) (pfx : String) : String :=
  match matchingSuffixes plots bid pfx with
  | [] => pfx ++ "001"
  | l => pfx ++ padAtLeastThree (l.foldr Nat.max 0 + 1)

theorem foldr_max_if_filterMap {α : Type} (f : α → Bool) (g : α → Nat) (l : List α) :
    (l.map fun a => if f a then g a else 0).foldr Nat.max 0
      = (l.filterMap fun a => if f a then some (g a) else none).foldr Nat.max 0 := by
  induction l with
  | nil => rfl
  | cons a l ih =>
    by_cases h : f a
    · simp [h, ih]
    · simp [h, ih, Nat.zero_max]

/-- The overflow guard of the allocator triggers exactly when some matching
suffix exceeds the INTEGER range. -/
theorem any_overflow_iff (plots : List LandPlotRow) (bid : Nat) (pfx : String) :
    ((plots.filter (fun p => p.block_id == bid)).any
        (fun p => matchesPat pfx p.plot_number
          && decide (int4Max < suffixVal pfx p.plot_number))) = true ↔
      ∃ n ∈ matchingSuffixes plots bid pfx, int4Max < n := by
  rw [List.any_eq_true]
  unfold matchingSuffixes
  constructor
  · rintro ⟨p, hp, hpred⟩
    simp only [Bool.and_eq_true, decide_eq_true_eq] at hpred
    exact ⟨suffixVal pfx p.plot_number,
      List.mem_filterMap.2 ⟨p, hp, by rw [if_pos hpred.1]⟩, hpred.2⟩
  · rintro ⟨n, hn, hlt⟩
    obtain ⟨p, hp, hsome⟩ := List.mem_filterMap.1 hn
    by_cases hm : matchesPat pfx p.plot_number
    · rw [if_pos hm] at hsome
      refine ⟨p, hp, ?_⟩
      simp only [Bool.and_eq_true, decide_eq_true_eq]
      refine ⟨hm, ?_⟩
      rw [Option.some_inj.1 hsome]
      exact hlt
    · rw [if_neg hm] at hsome
      exact Option.noConfusion hsome

/-- C4 counterexample: in a block whose only plot number is P999 the source
allocator returns P100 — PostgreSQL LPAD truncates the four-digit 1000 to
100 — while the claim requires P1000. -/
theorem get_next_plot_number_truncation_counterexample :
    get_next_plot_number [⟨1, 5, "P999", 100, "x", some "available", none⟩] 5 "P"
      = .ok "P100" ∧
    nextPlotNumberClaim [⟨1, 5, "P999", 100, "x", some "available", none⟩] 5 "P" = "P1000" ∧
    ("P100" : String) ≠ "P1000" :=
  ⟨rfl, by decide, by decide⟩

/-- C4 amended: for a prefix free of regex metacharacters (the default P is),
the allocator returns the prefixed LPAD to width three of the maximum
matching numeric suffix plus one — so a successor of four or more digits is
truncated on the right to three characters — when every matching suffix and
the successor fit the 32-bit INTEGER range, returns the prefixed 001 when no
plot number matches the pattern, and raises numeric-out-of-range when a
matching suffix or the successor exceeds that range. -/
theorem get_next_plot_number_characterization (plots : List LandPlotRow) (bid : Nat)
    (pfx : String) (hpfx : regexSafe pfx = true) :
    ((∀ n ∈ matchingSuffixes plots bid pfx, n ≤ int4Max) →
      (matchingSuffixes plots bid pfx).foldr Nat.max 0 + 1 ≤ int4Max →
      get_next_plot_number plots bid pfx
        = .ok (pfx ++
            lpad (Nat.repr ((matchingSuffixes plots bid pfx).foldr Nat.max 0 + 1)) 3 '0')) ∧
    (matchingSuffixes plots bid pfx = [] →
      get_next_plot_number plots bid pfx = .ok (pfx ++ "001")) ∧
    ((∃ n ∈ matchingSuffixes plots bid pfx, int4Max < n) →
      get_next_plot_number plots bid pfx = .error .numericOutOfRange) ∧
    ((∀ n ∈ matchingSuffixes plots bid pfx, n ≤ int4Max) →
      int4Max < (matchingSuffixes plots bid pfx).foldr Nat.max 0 + 1 →
      get_next_plot_number plots bid pfx = .error .numericOutOfRange) := by
  have hfold : ((plots.filter (fun p => p.block_id == bid)).map
      (fun p => if matchesPat pfx p.plot_number then suffixVal pfx p.plot_number else 0)).foldr
      Nat.max 0 = (matchingSuffixes plots bid pfx).foldr Nat.max 0 := by
    unfold matchingSuffixes
    exact foldr_max_if_filterMap (fun p => matchesPat pfx p.plot_number)
      (fun p => suffixVal pfx p.plot_number) (plots.filter (fun p => p.block_id == bid))
  have hanyiff := any_overflow_iff plots bid pfx
  have hok : ∀ hall : ∀ n ∈ matchingSuffixes plots bid pfx, n ≤ int4Max,
      (matchingSuffixes plots bid pfx).foldr Nat.max 0 + 1 ≤ int4Max →
      get_next_plot_number plots bid pfx
        = .ok (pfx ++
            lpad (Nat.repr ((matchingSuffixes plots bid pfx).foldr Nat.max 0 + 1)) 3 '0') := by
    intro hall hle
    unfold get_next_plot_number
    rw [if_neg ?hany, hfold, if_neg (by omega)]
    case hany =>
      intro hcontra
      obtain ⟨n, hn, hlt⟩ := hanyiff.1 hcontra
      exact absurd (hall n hn) (by omega)
  refine ⟨hok, fun hnil => ?_, fun hex => ?_, fun hall hgt => ?_⟩
  · have h := hok (fun n hn => absurd hn (by simp [hnil])) (by rw [hnil]; decide)
    rw [hnil] at h
    rw [h]
    congr 1
  · unfold get_next_plot_number
    rw [if_pos (hanyiff.2 hex)]
  · unfold get_next_plot_number
    rw [if_neg ?hany2, hfold, if_pos (by omega)]
    case hany2 =>
      intro hcontra
      obtain ⟨n, hn, hlt⟩ := hanyiff.1 hcontra
      exact absurd (hall n hn) (by omega)

theorem get_next_plot_number_characterization_witness :
    get_next_plot_number [] 0 "P" = .ok "P001" ∧
    get_next_plot_number [⟨1, 5, "P9999999999", 100, "x", some "available", none⟩] 5 "P"
      = .error .numericOutOfRange :=
  ⟨(get_next_plot_number_characterization [] 0 "P" (by decide)).2.1 rfl,
   (get_next_plot_number_characterization
      [⟨1, 5, "P9999999999", 100, "x", some "available", none⟩] 5 "P" (by decide)).2.2.1
      (by decide)⟩

/-! ## C10: statistics degenerate cases -/

theorem statJoinRows_all_empty (blocks : List LandBlockRow) (plots : List LandPlotRow)
    (pid : Nat)
    (h : ∀ b ∈ blocks, b.property_id = pid →
      plots.filter (fun p => p.block_id == b.id) = []) :
    statJoinRows blocks plots pid
      = (blocks.filter (fun b => b.property_id == pid)).map
          (fun b => (b, (none : Option LandPlotRow))) := by
  unfold statJoinRows
  induction blocks with
  | nil => rfl
  | cons b bs ih =>
    have hbs : ∀ b' ∈ bs, b'.property_id = pid →
        plots.filter (fun p => p.block_id == b'.id) = [] :=
      fun b' hb' => h b' (List.mem_cons_of_mem _ hb')
    by_cases hb : b.property_id = pid
    · rw [List.filter_cons_of_pos (by simpa using hb), List.flatMap_cons, List.map_cons,
        h b (List.mem_cons_self b bs) hb, ih hbs]
      rfl
    · rw [List.filter_cons_of_neg (by simpa using hb), ih hbs]

/-- C10: with zero blocks the statistics row is all zeros, and with blocks
but zero plots every plot count and every area statistic is zero; the
aggregator is total, never an error. -/
theorem get_property_land_statistics_zero (blocks : List LandBlockRow)
    (plots : List LandPlotRow) (pid : Nat) :
    (blocks.filter (fun b => b.property_id == pid) = [] →
      get_property_land_statistics blocks plots pid = zeroStatistics) ∧
    ((∀ b ∈ blocks, b.property_id = pid →
        plots.filter (fun p => p.block_id == b.id) = []) →
      (get_property_land_statistics blocks plots pid).total_plots = 0 ∧
      (get_property_land_statistics blocks plots pid).available_plots = 0 ∧
      (get_property_land_statistics blocks plots pid).booked_plots = 0 ∧
      (get_property_land_statistics blocks plots pid).sold_plots = 0 ∧
      (get_property_land_statistics blocks plots pid).reserved_plots = 0 ∧
      (get_property_land_statistics blocks plots pid).total_area = 0 ∧
      (get_property_land_statistics blocks plots pid).average_plot_size = 0 ∧
      (get_property_land_statistics blocks plots pid).min_plot_size = 0 ∧
      (get_property_land_statistics blocks plots pid).max_plot_size = 0) := by
  constructor
  · intro h
    simp [get_property_land_statistics, statJoinRows, h, zeroStatistics]
  · intro h
    have hrows := statJoinRows_all_empty blocks plots pid h
    have hplotRows : (statJoinRows blocks plots pid).filterMap Prod.snd = [] := by
      rw [hrows]
      simp
    simp [get_property_land_statistics, hplotRows]

theorem get_property_land_statistics_zero_witness :
    get_property_land_statistics [] [] 0 = zeroStatistics ∧
    (get_property_land_statistics [⟨1, 0, "A", none⟩] [] 0).total_plots = 0 ∧
    (get_property_land_statistics [⟨1, 0, "A", none⟩] [] 0).total_area = 0 :=
  ⟨(get_property_land_statistics_zero [] [] 0).1 rfl,
   ((get_property_land_statistics_zero [⟨1, 0, "A", none⟩] [] 0).2 (by decide)).1,
   ((get_property_land_statistics_zero [⟨1, 0, "A", none⟩] [] 0).2 (by decide)).2.2.2.2.2.1⟩

/-! ## C5: update_plot_booking raises on every call -/

def exDB5 : InventoryDB :=
  { land_plots := [], property_plots := [⟨1, 9, "P001", some "available", none, none, 0⟩],
    land_plot_status_history := [], history_ok := true, next_id := 5 }

/-- C5 counterexample: booking the available plot 1 as sold neither succeeds
nor writes a StatusHistoryEntry: the source function evaluates RETURN
v_success > 0 with v_success a BOOLEAN, an operator that does not exist, so
the call raises, the enclosing statement aborts and the UPDATE rolls back —
the plot keeps status available with booked_by NULL and the history store
stays empty, refuting the claimed successful booking with exactly one new
entry. -/
theorem update_plot_booking_counterexample :
    update_plot_booking exDB5 1 "sold" (some 7) 42 = .error .undefinedFunction ∧
    update_plot_booking_tx exDB5 1 "sold" (some 7) 42 = (exDB5, some .undefinedFunction) ∧
    exDB5.property_plots.map PropertyPlotRow.status = [some "available"] ∧
    exDB5.property_plots.map PropertyPlotRow.booked_by = [none] ∧
    exDB5.land_plot_status_history = [] :=
  ⟨rfl, rfl, by decide, by decide, rfl⟩

/-- C5 amended: update_plot_booking never succeeds: its UPDATE would set the
matching row's status, booked_by and booking timestamp exactly as claimed
and would touch no history row, and ROW_COUNT reflects whether a row
matched — but the boolean-vs-integer comparison in the RETURN clause then
raises undefined_function on every call, the statement abort rolls the
UPDATE back, and the caller observes the pre-call state with no
StatusHistoryEntry produced and no row-affected result returned. -/
theorem update_plot_booking_always_raises (db : InventoryDB) (plotId : Nat)
    (u : Option Nat) (now : Nat) :
    update_plot_booking db plotId "sold" u now = .error .undefinedFunction ∧
    update_plot_booking_tx db plotId "sold" u now = (db, some .undefinedFunction) ∧
    (update_plot_booking_tx db plotId "sold" u now).1.land_plot_status_history
      = db.land_plot_status_history ∧
    ((update_plot_booking_update db plotId "sold" u now).2
        = db.property_plots.any (fun p => p.id == plotId)) ∧
    (∀ p ∈ (update_plot_booking_update db plotId "sold" u now).1.property_plots,
        p.id = plotId → p.status = some "sold" ∧ p.booked_by = u ∧ p.booked_at = some now) ∧
    ((update_plot_booking_update db plotId "sold" u now).1.land_plot_status_history
        = db.land_plot_status_history) := by
  refine ⟨rfl, rfl, rfl, rfl, ?_, rfl⟩
  intro p hp hid
  simp only [update_plot_booking_update] at hp
  obtain ⟨q, hq, rfl⟩ := List.mem_map.1 hp
  by_cases h : (q.id == plotId) = true
  · simp [h]
  · simp only [if_neg h] at hid ⊢
    exact absurd hid (by simpa using h)

theorem update_plot_booking_always_raises_witness :
    update_plot_booking exDB5 1 "sold" (some 7) 42 = .error .undefinedFunction ∧
    (⟨1, 9, "P001", some "sold", some 7, some 42, 42⟩ : PropertyPlotRow).status
      = some "sold" := by
  have h := update_plot_booking_always_raises exDB5 1 (some 7) 42
  exact ⟨h.1, (h.2.2.2.2.1 ⟨1, 9, "P001", some "sold", some 7, some 42, 42⟩ (by decide) rfl).1⟩

/-! ## C8: plot deletion cascades into the history store -/

def exDB8 : InventoryDB :=
  { land_plots := [⟨1, 0, "P001", 1, "x", some "sold", none⟩],
    property_plots := [],
    land_plot_status_history := [⟨0, some 1, some "available", "sold", none, 5⟩],
    history_ok := true, next_id := 2 }

/-- C8 counterexample: plot 1 has one history row; deleting the plot leaves
the history store empty — the ON DELETE CASCADE foreign key removes the
row instead of nulling its plot reference as the claim states. -/
theorem delete_land_plot_counterexample :
    exDB8.land_plot_status_history ≠ [] ∧
    (delete_land_plot exDB8 1).land_plots = [] ∧
    (delete_land_plot exDB8 1).land_plot_status_history = [] := by
  decide

/-- C8 amended: deleting a plot deletes every history row that references
it (ON DELETE CASCADE); history rows of other plots and the rest of the
state survive unchanged. -/
theorem delete_land_plot_cascades (db : InventoryDB) (plotId : Nat) :
    (∀ h, h ∈ (delete_land_plot db plotId).land_plot_status_history ↔
        h ∈ db.land_plot_status_history ∧ h.plot_id ≠ some plotId) ∧
    (∀ p, p ∈ (delete_land_plot db plotId).land_plots ↔
        p ∈ db.land_plots ∧ p.id ≠ plotId) ∧
    (delete_land_plot db plotId).property_plots = db.property_plots := by
  refine ⟨fun h => ?_, fun p => ?_, rfl⟩
  · simp [delete_land_plot, List.mem_filter]
  · simp [delete_land_plot, List.mem_filter]

/-! ## C6: the tracker degrades gracefully -/

/-- C6: when writing the audit row cannot succeed — the history table or its
columns are missing (history_ok = false), or the NOT NULL new_status would be
violated (s = none) — a status update of land_plots still returns ok with
the plot updated, and the history store is left as it was: the trigger
swallows the failure and never aborts the operation. -/
theorem update_land_plot_status_resilient (db : InventoryDB) (plotId : Nat)
    (s : Option String) (now : Nat)
    (hs : plotStatusValid s = true)
    (hfail : db.history_ok = false ∨ s = none) :
    update_land_plot_status db plotId s now =
      .ok ({ db with land_plots := db.land_plots.map (fun p =>
               if p.id == plotId then { p with status := s } else p) },
           (db.land_plots.find? (fun p => p.id == plotId)).isSome) := by
  unfold update_land_plot_status
  rw [if_neg (by simp [hs])]
  cases hfind : db.land_plots.find? (fun p => p.id == plotId) with
  | none =>
    have hid : db.land_plots.map (fun p =>
        if p.id == plotId then { p with status := s } else p) = db.land_plots := by
      have hall := List.find?_eq_none.1 hfind
      calc db.land_plots.map (fun p => if p.id == plotId then { p with status := s } else p)
          = db.land_plots.map id :=
            List.map_congr_left (fun a ha => by simp [hall a ha])
        _ = db.land_plots := List.map_id _
    rw [hid]
    rfl
  | some old =>
    rcases hfail with hfalse | hnone
    · simp [track_plot_status_changes, hfalse]
    · subst hnone
      simp [track_plot_status_changes]

def exDB6 : InventoryDB :=
  { land_plots := [⟨1, 0, "P001", 1, "x", some "available", none⟩],
    property_plots := [], land_plot_status_history := [],
    history_ok := false, next_id := 3 }

theorem update_land_plot_status_resilient_witness :
    update_land_plot_status exDB6 1 (some "sold") 42 =
      .ok ({ exDB6 with land_plots := [⟨1, 0, "P001", 1, "x", some "sold", none⟩] }, true) := by
  rw [update_land_plot_status_resilient exDB6 1 (some "sold") 42 (by decide) (Or.inl rfl)]
  rfl

/-! ## C7: a history entry is written iff the status changes -/

/-- C7: when the history store is intact, updating an existing plot's status
appends exactly one history entry — capturing the old status, the new status
and the timestamp — precisely when the stored status differs from the new
one, and appends nothing when they are equal. -/
theorem status_history_iff_changed (db : InventoryDB) (plotId now : Nat) (s : String)
    (old : LandPlotRow)
    (hok : db.history_ok = true)
    (hfind : db.land_plots.find? (fun p => p.id == plotId) = some old)
    (hs : plotStatusValid (some s) = true) :
    ∃ db', update_land_plot_status db plotId (some s) now = .ok (db', true) ∧
      (old.status ≠ some s →
        db'.land_plot_status_history = db.land_plot_status_history ++
          [{ id := db.next_id, plot_id := some plotId, old_status := old.status,
             new_status := s, changed_by := none, changed_at := now }]) ∧
      (old.status = some s → db'.land_plot_status_history = db.land_plot_status_history) := by
  unfold update_land_plot_status
  rw [if_neg (by simp [hs]), hfind]
  refine ⟨_, rfl, fun hne => ?_, fun heq => ?_⟩
  · simp [track_plot_status_changes, hok, hne]
  · simp [track_plot_status_changes, heq]

def exDB7 : InventoryDB :=
  { land_plots := [⟨1, 0, "P001", 1, "x", some "available", none⟩],
    property_plots := [], land_plot_status_history := [],
    history_ok := true, next_id := 3 }

theorem status_history_iff_changed_witness :
    ∃ db', update_land_plot_status exDB7 1 (some "sold") 42 = .ok (db', true) ∧
      db'.land_plot_status_history = [⟨3, some 1, some "available", "sold", none, 42⟩] := by
  obtain ⟨db', h1, h2, _⟩ := status_history_iff_changed exDB7 1 42 "sold"
    ⟨1, 0, "P001", 1, "x", some "available", none⟩ rfl rfl (by decide)
  exact ⟨db', h1, (h2 (by decide)).trans rfl⟩

/-! ## Frame lemmas for the apply engine -/

theorem insert_land_plot_ok (db : ConfigDB) (bid : Nat) (pd : PlotData) (db1 : ConfigDB)
    (h : insert_land_plot db bid pd = .ok db1) :
    db1.land_blocks = db.land_blocks ∧ db1.configs = db.configs ∧
    db1.next_id = db.next_id + 1 ∧
    db1.land_plots = db.land_plots ++
      [{ id := db.next_id, block_id := bid, plot_number := pd.plot_number,
         area := pd.area, price := pd.price, status := pd.status,
         description := pd.description }] := by
  unfold insert_land_plot at h
  split at h
  · exact absurd h (by simp)
  · split at h
    · exact absurd h (by simp)
    · split at h
      · exact absurd h (by simp)
      · cases h
        exact ⟨rfl, rfl, rfl, rfl⟩

theorem insert_land_block_ok (db : ConfigDB) (pid : Nat) (bname : String)
    (bdesc : Option String) (db1 : ConfigDB) (bid : Nat)
    (h : insert_land_block db pid bname bdesc = .ok (db1, bid)) :
    bid = db.next_id ∧ db1.land_plots = db.land_plots ∧ db1.configs = db.configs ∧
    db1.next_id = db.next_id + 1 ∧
    db1.land_blocks = db.land_blocks ++
      [{ id := db.next_id, property_id := pid, name := bname, description := bdesc }] := by
  unfold insert_land_block at h
  split at h
  · exact absurd h (by simp)
  · cases h
    exact ⟨rfl, rfl, rfl, rfl, rfl⟩

/-- Erase the identifier copied into a payload plot object. -/
def plotRowData (q : LandPlotRow) : PlotData :=
  { id := none, plot_number := q.plot_number, area := q.area, price := q.price,
    status := q.status, description := q.description }

theorem applyPlots_ok (ps : List PlotData) (db : ConfigDB) (bid : Nat) (db1 : ConfigDB)
    (h : applyPlots db bid ps = .ok db1) :
    db1.land_blocks = db.land_blocks ∧ db1.configs = db.configs ∧
    db.next_id ≤ db1.next_id ∧
    ∃ qs, db1.land_plots = db.land_plots ++ qs ∧
      (∀ q ∈ qs, q.block_id = bid) ∧
      qs.map plotRowData = ps.map PlotData.eraseId := by
  induction ps generalizing db with
  | nil =>
    cases h
    exact ⟨rfl, rfl, Nat.le_refl _, [], by simp, by simp, rfl⟩
  | cons pd rest ih =>
    unfold applyPlots at h
    cases hins : insert_land_plot db bid pd with
    | error e =>
      rw [hins] at h
      exact Except.noConfusion h
    | ok dbi =>
      rw [hins] at h
      replace h : applyPlots dbi bid rest = .ok db1 := h
      obtain ⟨hb, hc, hn, hplots⟩ := insert_land_plot_ok db bid pd dbi hins
      obtain ⟨ihb, ihc, ihn, qs, ihplots, ihbid, ihshape⟩ := ih dbi h
      refine ⟨ihb.trans hb, ihc.trans hc, by omega, ?_⟩
      refine ⟨LandPlotRow.mk db.next_id bid pd.plot_number pd.area pd.price pd.status
        pd.description :: qs, ?_, ?_, ?_⟩
      · rw [ihplots, hplots]
        simp
      · intro q hq
        rcases List.mem_cons.1 hq with rfl | hq'
        · rfl
        · exact ihbid q hq'
      · simp only [List.map_cons, ihshape]
        rfl

theorem applyBlocks_frame (payload : List BlockData) (db : ConfigDB) (pid : Nat)
    (db1 : ConfigDB) (h : applyBlocks db pid payload = .ok db1) :
    db1.configs = db.configs ∧ db.next_id ≤ db1.next_id := by
  induction payload generalizing db with
  | nil => cases h; exact ⟨rfl, Nat.le_refl _⟩
  | cons bd rest ih =>
    unfold applyBlocks at h
    cases hins : insert_land_block db pid bd.name bd.description with
    | error e =>
      rw [hins] at h
      exact Except.noConfusion h
    | ok r =>
      obtain ⟨dbB, bid⟩ := r
      rw [hins] at h
      replace h : (match applyPlots dbB bid bd.plots with
        | Except.error e => Except.error e
        | Except.ok db2 => applyBlocks db2 pid rest) = Except.ok db1 := h
      cases hps : applyPlots dbB bid bd.plots with
      | error e =>
        rw [hps] at h
        exact Except.noConfusion h
      | ok dbP =>
        rw [hps] at h
        replace h : applyBlocks dbP pid rest = .ok db1 := h
        obtain ⟨hbid, hp, hc, hn, hblocks⟩ :=
          insert_land_block_ok db pid bd.name bd.description dbB bid hins
        obtain ⟨hPb, hPc, hPn, _⟩ := applyPlots_ok bd.plots dbB bid dbP hps
        obtain ⟨ihc, ihn⟩ := ih dbP h
        exact ⟨ihc.trans (hPc.trans hc), by omega⟩

theorem insert_land_plot_error (db : ConfigDB) (bid : Nat) (pd : PlotData) (e : SqlError)
    (h : insert_land_plot db bid pd = .error e) : e ≠ .notFound := by
  unfold insert_land_plot at h
  split at h
  · cases h; simp
  · split at h
    · cases h; simp
    · split at h
      · cases h; simp
      · exact Except.noConfusion h

theorem applyPlots_no_notFound (ps : List PlotData) (db : ConfigDB) (bid : Nat)
    (e : SqlError) (h : applyPlots db bid ps = .error e) : e ≠ .notFound := by
  induction ps generalizing db with
  | nil => exact Except.noConfusion h
  | cons pd rest ih =>
    unfold applyPlots at h
    cases hins : insert_land_plot db bid pd with
    | error e' =>
      rw [hins] at h
      replace h : Except.error (ε := SqlError) (α := ConfigDB) e' = .error e := h
      cases h
      exact insert_land_plot_error db bid pd e hins
    | ok dbi =>
      rw [hins] at h
      exact ih dbi h

theorem applyBlocks_no_notFound (payload : List BlockData) (db : ConfigDB) (pid : Nat)
    (e : SqlError) (h : applyBlocks db pid payload = .error e) : e ≠ .notFound := by
  induction payload generalizing db with
  | nil => exact Except.noConfusion h
  | cons bd rest ih =>
    unfold applyBlocks at h
    cases hins : insert_land_block db pid bd.name bd.description with
    | error e' =>
      rw [hins] at h
      replace h : Except.error (ε := SqlError) (α := ConfigDB) e' = .error e := h
      cases h
      unfold insert_land_block at hins
      split at hins
      · cases hins; simp
      · exact Except.noConfusion hins
    | ok r =>
      obtain ⟨dbB, bid⟩ := r
      rw [hins] at h
      replace h : (match applyPlots dbB bid bd.plots with
        | Except.error e => Except.error e
        | Except.ok db2 => applyBlocks db2 pid rest) = Except.error e := h
      cases hps : applyPlots dbB bid bd.plots with
      | error e' =>
        rw [hps] at h
        replace h : Except.error (ε := SqlError) (α := ConfigDB) e' = .error e := h
        cases h
        exact applyPlots_no_notFound bd.plots dbB bid e hps
      | ok dbP =>
        rw [hps] at h
        exact ih dbP h

/-! ## C1: NotFound condition and transactional rollback -/

/-- C1: apply fails with NotFound exactly when no configuration with the
given identifier is active (absent or inactive), and whenever the apply
fails for any reason the caller observes the pre-call state unchanged —
every pre-existing block and plot survives, no partial state. -/
theorem apply_notFound_and_rollback (db : ConfigDB) (cid : Nat) :
    (apply_property_land_configuration db cid = .error .notFound ↔
      db.configs.find? (fun c => c.id == cid && c.is_active) = none) ∧
    (∀ e, (apply_configuration_tx db cid).2 = some e →
      (apply_configuration_tx db cid).1 = db) := by
  constructor
  · unfold apply_property_land_configuration
    cases hfind : db.configs.find? (fun c => c.id == cid && c.is_active) with
    | none => simp
    | some c =>
      constructor
      · intro h
        replace h : applyBlocks (clearProperty db c.property_id) c.property_id c.blocks_data
            = .error .notFound := h
        exact absurd rfl (applyBlocks_no_notFound _ _ _ _ h)
      · intro h
        exact Option.noConfusion h
  · intro e h
    unfold apply_configuration_tx at h ⊢
    cases happ : apply_property_land_configuration db cid with
    | ok db1 =>
      rw [happ] at h
      exact Option.noConfusion h
    | error e1 => rfl

def emptyConfigDB : ConfigDB :=
  { land_blocks := [], land_plots := [], configs := [], next_id := 0 }

theorem apply_notFound_and_rollback_witness :
    apply_property_land_configuration emptyConfigDB 3 = .error .notFound ∧
    (apply_configuration_tx emptyConfigDB 3).1 = emptyConfigDB :=
  ⟨(apply_notFound_and_rollback emptyConfigDB 3).1.2 rfl,
   (apply_notFound_and_rollback emptyConfigDB 3).2 .notFound rfl⟩

/-! ## C9: apply demands an already-active configuration -/

theorem mem_of_length_le_one {α : Type} {l : List α} (h : l.length ≤ 1) {a b : α}
    (ha : a ∈ l) (hb : b ∈ l) : a = b := by
  match l with
  | [] => exact absurd ha (List.not_mem_nil a)
  | [x] =>
    rw [List.mem_singleton.1 ha, List.mem_singleton.1 hb]
  | x :: y :: t => simp at h

def exCfg9 : ConfigRow :=
  { id := 1, property_id := 1, configuration_name := "Layout",
    blocks_data := [], is_active := false }

def exDB9 : ConfigDB :=
  { land_blocks := [], land_plots := [], configs := [exCfg9], next_id := 2 }

/-- C9 counterexample: configuration 1 of property 1 exists but is inactive;
the claim says applying it activates it, but the source apply refuses with
NotFound, changes nothing, and the configuration stays inactive. -/
theorem apply_does_not_activate_counterexample :
    exCfg9 ∈ exDB9.configs ∧ exCfg9.is_active = false ∧
    apply_configuration_tx exDB9 1 = (exDB9, some .notFound) ∧
    ((apply_configuration_tx exDB9 1).1.configs.filter (fun c => c.is_active)).length = 0 := by
  exact ⟨List.mem_cons_self _ _, rfl, rfl, rfl⟩

/-- C9 amended: apply never writes the configuration table: it requires the
target configuration to be active already and fails with NotFound otherwise;
after a successful apply the configuration rows are exactly as before, so
the applied configuration — active before the call — is still active, and
under the at-most-one-active invariant it is the property's unique active
configuration. -/
theorem apply_requires_active (db : ConfigDB) (cid : Nat) (db1 : ConfigDB)
    (h : apply_property_land_configuration db cid = .ok db1) :
    db1.configs = db.configs ∧
    ∃ c ∈ db.configs, c.id = cid ∧ c.is_active = true ∧
      (atMostOneActive db →
        ∀ c' ∈ db1.configs, c'.property_id = c.property_id → c'.is_active = true → c' = c) := by
  unfold apply_property_land_configuration at h
  cases hfind : db.configs.find? (fun c => c.id == cid && c.is_active) with
  | none =>
    rw [hfind] at h
    exact Except.noConfusion h
  | some c =>
    rw [hfind] at h
    replace h : applyBlocks (clearProperty db c.property_id) c.property_id c.blocks_data
        = .ok db1 := h
    obtain ⟨hconfigs, _⟩ := applyBlocks_frame _ _ _ _ h
    have hcfg : db1.configs = db.configs := hconfigs
    have hmem := List.mem_of_find?_eq_some hfind
    have hpred := List.find?_some hfind
    simp only [Bool.and_eq_true, beq_iff_eq] at hpred
    refine ⟨hcfg, c, hmem, hpred.1, hpred.2, fun hinv c' hc' hprop hact => ?_⟩
    have hcL : c ∈ db.configs.filter (fun x => x.property_id == c.property_id && x.is_active) :=
      List.mem_filter.2 ⟨hmem, by simp [hpred.2]⟩
    have hc'L : c' ∈ db.configs.filter (fun x => x.property_id == c.property_id && x.is_active) :=
      List.mem_filter.2 ⟨hcfg ▸ hc', by simp [hprop, hact]⟩
    exact mem_of_length_le_one (hinv c.property_id) hc'L hcL

def exCfgA : ConfigRow :=
  { id := 0, property_id := 1, configuration_name := "cfg",
    blocks_data := [⟨some 5, "A", none, []⟩], is_active := true }

def exDBA : ConfigDB :=
  { land_blocks := [], land_plots := [], configs := [exCfgA], next_id := 7 }

theorem apply_requires_active_witness :
    ∃ c ∈ exDBA.configs, c.id = 0 ∧ c.is_active = true := by
  obtain ⟨_, c, hmem, hid, hact, _⟩ := apply_requires_active exDBA 0
    { land_blocks := [⟨7, 1, "A", none⟩], land_plots := [], configs := [exCfgA], next_id := 8 }
    rfl
  exact ⟨c, hmem, hid, hact⟩

/-! ## C2: at most one active configuration per property -/

theorem create_configs (db : ConfigDB) (pid : Nat) (cfgName : String) :
    ((create_property_land_configuration db pid cfgName).1).configs
      = db.configs.map (fun c =>
          if c.property_id == pid && c.is_active then { c with is_active := false } else c)
        ++ [⟨db.next_id, pid, cfgName, blocksJson db pid, true⟩] := rfl

theorem activeCount_create (db : ConfigDB) (pid : Nat) (cfgName : String) (q : Nat) :
    activeCount (create_property_land_configuration db pid cfgName).1 q
      = if q = pid then 1 else activeCount db q := by
  unfold activeCount
  rw [create_configs, List.filter_append, List.length_append]
  by_cases hq : q = pid
  · subst hq
    rw [if_pos rfl]
    have h1 : (db.configs.map (fun c =>
        if c.property_id == q && c.is_active then { c with is_active := false } else c)).filter
          (fun c => c.property_id == q && c.is_active) = [] := by
      rw [List.filter_eq_nil_iff]
      intro a ha
      obtain ⟨c, hc, rfl⟩ := List.mem_map.1 ha
      by_cases hcond : (c.property_id == q && c.is_active) = true
      · simp [hcond]
      · simp only [if_neg hcond]
        simp at hcond ⊢
        exact hcond
    rw [h1]
    simp
  · rw [if_neg hq]
    have hnew : (([⟨db.next_id, pid, cfgName, blocksJson db pid, true⟩] : List ConfigRow).filter
        (fun c => c.property_id == q && c.is_active)) = [] := by
      simp [Ne.symm hq]
    rw [hnew, List.filter_map, List.length_map, List.length_nil, Nat.add_zero]
    congr 1
    apply List.filter_congr
    intro c hc
    by_cases hcond : (c.property_id == pid && c.is_active) = true
    · simp only [Bool.and_eq_true, beq_iff_eq] at hcond
      simp [Function.comp, hcond.1, hcond.2, Ne.symm hq]
    · simp only [Function.comp]
      rw [if_neg hcond]

theorem apply_tx_configs (db : ConfigDB) (cid : Nat) :
    ((apply_configuration_tx db cid).1).configs = db.configs := by
  unfold apply_configuration_tx
  cases happ : apply_property_land_configuration db cid with
  | error e => rfl
  | ok db1 =>
    unfold apply_property_land_configuration at happ
    cases hfind : db.configs.find? (fun c => c.id == cid && c.is_active) with
    | none =>
      rw [hfind] at happ
      exact Except.noConfusion happ
    | some c =>
      rw [hfind] at happ
      replace happ : applyBlocks (clearProperty db c.property_id) c.property_id c.blocks_data
          = .ok db1 := happ
      exact (applyBlocks_frame _ _ _ _ happ).1

/-- C2: after any sequence of save and apply operations at most one
configuration per property is active, and a save deactivates every
pre-existing configuration of the property: any active configuration of the
property in its result is the newly inserted row. -/
theorem save_apply_at_most_one_active (db : ConfigDB) (ops : List LandOp)
    (h : atMostOneActive db) :
    atMostOneActive (runOps db ops) ∧
    (∀ pid cfgName c', c' ∈ ((create_property_land_configuration db pid cfgName).1).configs →
      c'.property_id = pid → c'.is_active = true →
      c' = ⟨db.next_id, pid, cfgName, blocksJson db pid, true⟩) := by
  constructor
  · have H : ∀ ops1 db1, atMostOneActive db1 → atMostOneActive (runOps db1 ops1) := by
      intro ops1
      induction ops1 with
      | nil => exact fun db1 hdb => hdb
      | cons op rest ih =>
        intro db1 hdb
        have hstep : atMostOneActive (runOp db1 op) := by
          cases op with
          | save pid cfgName =>
            intro q
            show activeCount (create_property_land_configuration db1 pid cfgName).1 q ≤ 1
            rw [activeCount_create]
            by_cases hq : q = pid
            · simp [hq]
            · simpa [hq] using hdb q
          | applyCfg cid =>
            intro q
            show activeCount (apply_configuration_tx db1 cid).1 q ≤ 1
            unfold activeCount
            rw [apply_tx_configs]
            exact hdb q
        exact ih (runOp db1 op) hstep
    exact H ops db h
  · intro pid cfgName c' hc' hprop hact
    rw [create_configs] at hc'
    rcases List.mem_append.1 hc' with hmem | hmem
    · obtain ⟨c, hc, rfl⟩ := List.mem_map.1 hmem
      by_cases hcond : (c.property_id == pid && c.is_active) = true
      · rw [if_pos hcond] at hact
        exact absurd hact (by simp)
      · rw [if_neg hcond] at hact hprop
        exact absurd (by simp [hprop, hact]) hcond
    · exact List.mem_singleton.1 hmem

theorem save_apply_at_most_one_active_witness :
    atMostOneActive (runOps emptyConfigDB [LandOp.save 1 "v1", LandOp.save 1 "v2"]) :=
  (save_apply_at_most_one_active emptyConfigDB [LandOp.save 1 "v1", LandOp.save 1 "v2"]
    (fun q => by simp [activeCount, emptyConfigDB])).1

/-! ## C3: round-trip of apply followed by snapshot -/

theorem blocksJson_step (db dbP : ConfigDB) (pid n : Nat) (bd : BlockData)
    (qs : List LandPlotRow)
    (hblocks : dbP.land_blocks = db.land_blocks ++ [⟨n, pid, bd.name, bd.description⟩])
    (hplots : dbP.land_plots = db.land_plots ++ qs)
    (hb : ∀ b ∈ db.land_blocks, b.id < n)
    (hp : ∀ p ∈ db.land_plots, p.block_id < n)
    (hqs : ∀ q ∈ qs, q.block_id = n)
    (hshape : qs.map plotRowData = bd.plots.map PlotData.eraseId) :
    payloadShape (blocksJson dbP pid)
      = payloadShape (blocksJson db pid) ++ [BlockData.eraseIds bd] := by
  unfold payloadShape blocksJson
  rw [hblocks, hplots, List.filter_append]
  have hBpos : (([⟨n, pid, bd.name, bd.description⟩] : List LandBlockRow).filter
      (fun b => b.property_id == pid)) = [⟨n, pid, bd.name, bd.description⟩] := by simp
  rw [hBpos, List.map_append, List.map_append]
  congr 1
  · -- pre-existing blocks of the property keep exactly their own plots
    have hmapeq : ∀ b ∈ db.land_blocks.filter (fun b => b.property_id == pid),
        ((db.land_plots ++ qs).filter (fun p => p.block_id == b.id)) =
          (db.land_plots.filter (fun p => p.block_id == b.id)) := by
      intro b hbmem
      have hbid := hb b (List.mem_of_mem_filter hbmem)
      rw [List.filter_append]
      have hqnil : qs.filter (fun p => p.block_id == b.id) = [] := by
        rw [List.filter_eq_nil_iff]
        intro q hq
        have := hqs q hq
        simp [this]
        omega
      rw [hqnil, List.append_nil]
    exact congrArg (List.map BlockData.eraseIds)
      (List.map_congr_left (fun b hbmem => by rw [hmapeq b hbmem]))
  · -- the new block carries exactly the plots just inserted for it
    have hdbnil : db.land_plots.filter
        (fun p => p.block_id == (⟨n, pid, bd.name, bd.description⟩ : LandBlockRow).id) = [] := by
      rw [List.filter_eq_nil_iff]
      intro p hpmem
      have := hp p hpmem
      simp
      omega
    have hqall : qs.filter
        (fun p => p.block_id == (⟨n, pid, bd.name, bd.description⟩ : LandBlockRow).id) = qs := by
      rw [List.filter_eq_self]
      intro q hq
      simp [hqs q hq]
    simp only [List.map_cons, List.map_nil, List.filter_append, hdbnil, hqall,
      List.nil_append]
    unfold BlockData.eraseIds
    simp only [List.map_map]
    congr 1
    have : (PlotData.eraseId ∘ fun p : LandPlotRow =>
        ({ id := some p.id, plot_number := p.plot_number, area := p.area,
           price := p.price, status := p.status, description := p.description } : PlotData))
        = plotRowData := by
      funext q
      rfl
    rw [this, hshape]

theorem applyBlocks_snapshot (payload : List BlockData) (db : ConfigDB) (pid : Nat)
    (db1 : ConfigDB)
    (hb : ∀ b ∈ db.land_blocks, b.id < db.next_id)
    (hp : ∀ p ∈ db.land_plots, p.block_id < db.next_id)
    (h : applyBlocks db pid payload = .ok db1) :
    (∀ b ∈ db1.land_blocks, b.id < db1.next_id) ∧
    (∀ p ∈ db1.land_plots, p.block_id < db1.next_id) ∧
    payloadShape (blocksJson db1 pid)
      = payloadShape (blocksJson db pid) ++ payloadShape payload := by
  induction payload generalizing db with
  | nil =>
    cases h
    exact ⟨hb, hp, by simp [payloadShape]⟩
  | cons bd rest ih =>
    unfold applyBlocks at h
    cases hins : insert_land_block db pid bd.name bd.description with
    | error e =>
      rw [hins] at h
      exact Except.noConfusion h
    | ok r =>
      obtain ⟨dbB, bid⟩ := r
      rw [hins] at h
      replace h : (match applyPlots dbB bid bd.plots with
        | Except.error e => Except.error e
        | Except.ok db2 => applyBlocks db2 pid rest) = Except.ok db1 := h
      cases hps : applyPlots dbB bid bd.plots with
      | error e =>
        rw [hps] at h
        exact Except.noConfusion h
      | ok dbP =>
        rw [hps] at h
        replace h : applyBlocks dbP pid rest = .ok db1 := h
        obtain ⟨hbid, hBp, hBc, hBn, hBblocks⟩ :=
          insert_land_block_ok db pid bd.name bd.description dbB bid hins
        obtain ⟨hPb, hPc, hPn, qs, hPplots, hPbid, hPshape⟩ :=
          applyPlots_ok bd.plots dbB bid dbP hps
        subst hbid
        -- well-formedness of the intermediate state
        have hb2 : ∀ b ∈ dbP.land_blocks, b.id < dbP.next_id := by
          intro b hbm
          rw [hPb, hBblocks] at hbm
          rcases List.mem_append.1 hbm with hold | hnew
          · have := hb b hold
            omega
          · rw [List.mem_singleton.1 hnew]
            show db.next_id < dbP.next_id
            omega
        have hp2 : ∀ p ∈ dbP.land_plots, p.block_id < dbP.next_id := by
          intro p hpm
          rw [hPplots, hBp] at hpm
          rcases List.mem_append.1 hpm with hold | hnew
          · have := hp p hold
            omega
          · have := hPbid p hnew
            omega
        obtain ⟨ihb, ihp, ihshape⟩ := ih dbP hb2 hp2 h
        refine ⟨ihb, ihp, ?_⟩
        rw [ihshape]
        have hstep := blocksJson_step db dbP pid db.next_id bd qs
          (hPb.trans hBblocks) (by rw [hPplots, hBp]) hb hp hPbid hPshape
        rw [hstep]
        simp [payloadShape]

theorem blocksJson_clearProperty (db : ConfigDB) (pid : Nat) :
    blocksJson (clearProperty db pid) pid = [] := by
  unfold blocksJson clearProperty
  have : (db.land_blocks.filter (fun b => ¬ b.property_id == pid)).filter
      (fun b => b.property_id == pid) = [] := by
    rw [List.filter_eq_nil_iff]
    intro b hbm
    have := List.of_mem_filter hbm
    simp at this ⊢
    exact this
  rw [this]
  rfl

/-- C3: applying an active configuration and immediately snapshotting the
property under a new name stores a payload structurally equal to the applied
configuration's payload — same blocks with the same names, descriptions and
plots (plot_number, area, price, status, description) in the same order —
differing only in the generated identifiers. -/
theorem apply_then_snapshot_roundtrip (db : ConfigDB) (cid : Nat) (db1 : ConfigDB)
    (c : ConfigRow) (newName : String)
    (hWF : WFIds db)
    (hfind : db.configs.find? (fun x => x.id == cid && x.is_active) = some c)
    (h : apply_property_land_configuration db cid = .ok db1) :
    ∃ c' ∈ ((create_property_land_configuration db1 c.property_id newName).1).configs,
      c'.id = (create_property_land_configuration db1 c.property_id newName).2 ∧
      payloadShape c'.blocks_data = payloadShape c.blocks_data := by
  unfold apply_property_land_configuration at h
  rw [hfind] at h
  replace h : applyBlocks (clearProperty db c.property_id) c.property_id c.blocks_data
      = .ok db1 := h
  obtain ⟨hWFb, hWFp, _⟩ := hWF
  have hcb : ∀ b ∈ (clearProperty db c.property_id).land_blocks,
      b.id < (clearProperty db c.property_id).next_id := by
    intro b hbm
    exact hWFb b (List.mem_of_mem_filter hbm)
  have hcp : ∀ p ∈ (clearProperty db c.property_id).land_plots,
      p.block_id < (clearProperty db c.property_id).next_id := by
    intro p hpm
    exact hWFp p (List.mem_of_mem_filter hpm)
  obtain ⟨_, _, hshape⟩ := applyBlocks_snapshot c.blocks_data
    (clearProperty db c.property_id) c.property_id db1 hcb hcp h
  rw [blocksJson_clearProperty] at hshape
  refine ⟨⟨db1.next_id, c.property_id, newName, blocksJson db1 c.property_id, true⟩,
    ?_, rfl, ?_⟩
  · rw [create_configs]
    exact List.mem_append_right _ (List.mem_singleton.2 rfl)
  · simpa [payloadShape] using hshape

def exCfg3 : ConfigRow :=
  { id := 0, property_id := 1, configuration_name := "cfg",
    blocks_data := [⟨some 5, "A", none,
      [⟨some 6, "P001", 100, "10 lakhs", some "available", none⟩]⟩],
    is_active := true }

def exDB3 : ConfigDB :=
  { land_blocks := [], land_plots := [], configs := [exCfg3], next_id := 7 }

def exDB3' : ConfigDB :=
  { land_blocks := [⟨7, 1, "A", none⟩],
    land_plots := [⟨8, 7, "P001", 100, "10 lakhs", some "available", none⟩],
    configs := [exCfg3], next_id := 9 }

theorem apply_then_snapshot_roundtrip_witness :
    ∃ c' ∈ ((create_property_land_configuration exDB3' 1 "again").1).configs,
      c'.id = (create_property_land_configuration exDB3' 1 "again").2 ∧
      payloadShape c'.blocks_data = payloadShape exCfg3.blocks_data :=
  apply_then_snapshot_roundtrip exDB3 0 exDB3' exCfg3 "again"
    ⟨by decide, by decide, by decide⟩ rfl rfl

end LandEngine
